import Mathlib

/-!
Telco Churn Dashboard — verification development.

Shallow embedding of the analytics engine of `src/churn_dashboard.py`:
the record loader derived columns, the filter evaluator, the KPI
summarizer and the chart-building aggregations.  Machine floats of the
source are modelled as exact rationals (`ℚ`); pandas `NaN` and missing
cells as `Option`; an empty `go.Figure()` as `none` in the dashboard
output.
-/

namespace TelcoChurn

/-- One customer row, with the raw columns the engine reads.
`totalChargesRaw = none` models a blank `TotalCharges` cell that fails
numeric parsing (`pd.to_numeric` with coercion of errors). -/
structure Record where
  gender : String
  dependents : String
  phoneService : String
  paperlessBilling : String
  internetService : String
  contract : String
  paymentMethod : String
  tenure : ℤ
  monthlyCharges : ℚ
  totalChargesRaw : Option ℚ
  churn : String
deriving DecidableEq, Repr

/-- Loader: `TotalCharges` is parsed numerically and `fillna(0)` applied — a
blank cell becomes 0, never an error or a missing marker. -/
def totalCharges (r : Record) : ℚ :=
  r.totalChargesRaw.getD 0

/-- Loader: `ChurnBinary` is 1 when the `Churn` column equals the literal
`Yes` — exact match, no trimming, no case folding. -/
def churnBinary (r : Record) : ℕ :=
  if r.churn = "Yes" then 1 else 0

/-- Loader: `pd.cut` of tenure over bins 0, 3, 6, 12, 24, 48, 72 with
`include_lowest`: intervals [0,3], (3,6], (6,12], (12,24], (24,48],
(48,72]; a value outside [0,72] gets no label (pandas `NaN`). -/
def tenureBand (t : ℤ) : Option String :=
  if 0 ≤ t ∧ t ≤ 3 then some "0-3"
  else if 3 < t ∧ t ≤ 6 then some "3-6"
  else if 6 < t ∧ t ≤ 12 then some "6-12"
  else if 12 < t ∧ t ≤ 24 then some "12-24"
  else if 24 < t ∧ t ≤ 48 then some "24-48"
  else if 48 < t ∧ t ≤ 72 then some "48-72"
  else none

/-- Loader: `Segment` is the contract value, a fixed separator, then the
internet-service value. -/
def segment (r : Record) : String :=
  r.contract ++ " | " ++ r.internetService

/-- `filter_data`: each categorical filter applies only when its value is
not the `All` sentinel; the tenure range applies only when BOTH bounds are
present (the source guards on `tenure_min` and `tenure_max` both being
non-None), and is then inclusive on both ends. -/
def filter_data (df : List Record) (genderF paperlessF phoneF dependentsF : String)
    (tenureMin tenureMax : Option ℤ) : List Record :=
  let f1 := if genderF ≠ "All" then df.filter (fun r => r.gender = genderF) else df
  let f2 := if paperlessF ≠ "All" then f1.filter (fun r => r.paperlessBilling = paperlessF) else f1
  let f3 := if phoneF ≠ "All" then f2.filter (fun r => r.phoneService = phoneF) else f2
  let f4 := if dependentsF ≠ "All" then f3.filter (fun r => r.dependents = dependentsF) else f3
  match tenureMin, tenureMax with
  | some tmin, some tmax => f4.filter (fun r => tmin ≤ r.tenure ∧ r.tenure ≤ tmax)
  | _, _ => f4

/-- The sum of the `ChurnBinary` column of a record set. -/
def churnSum (df : List Record) : ℕ :=
  (df.map churnBinary).sum

/-- The numeric churn-rate KPI behind the displayed string:
`ChurnBinary.sum() / len * 100` when the filtered set is non-empty, the
displayed default 0 (shown as `0%`) otherwise. -/
def kpiChurnRateValue (df : List Record) : ℚ :=
  if 0 < df.length then (churnSum df : ℚ) / (df.length : ℚ) * 100 else 0

/-- The sum of the `MonthlyCharges` column of a record set. -/
def monthlySum (df : List Record) : ℚ :=
  (df.map (·.monthlyCharges)).sum

/-- The mean of the tenure column of a record set. -/
def tenureMean (df : List Record) : ℚ :=
  ((df.map (·.tenure)).sum : ℚ) / (df.length : ℚ)

/-- Rounding to the nearest integer (halves up): `⌊q + 1/2⌋`, written with
integer floor division so that it evaluates inside the kernel. -/
def roundQ (q : ℚ) : ℤ :=
  Int.fdiv (2 * q.num + (q.den : ℤ)) (2 * (q.den : ℤ))

/-- Two-digit zero-padded fraction part. -/
def pad2 (n : ℕ) : String :=
  if n < 10 then "0" ++ toString n else toString n

/-- The two-decimal fixed-point format of the source (its f-string with
precision 2), modelled over `ℚ` with rounding to the nearest hundredth. -/
def fmt2dec (q : ℚ) : String :=
  let m : ℤ := roundQ (q * 100)
  (if m < 0 then "-" else "") ++ toString (m.natAbs / 100) ++ "." ++ pad2 (m.natAbs % 100)

/-- The one-decimal fixed-point format of the source (its f-string with
precision 1), modelled over `ℚ` with rounding to the nearest tenth. -/
def fmt1dec (q : ℚ) : String :=
  let m : ℤ := roundQ (q * 10)
  (if m < 0 then "-" else "") ++ toString (m.natAbs / 10) ++ "." ++ toString (m.natAbs % 10)

/-- Insert a thousands separator every three digits; the input digit list
is least-significant first. -/
def groupDigits : List Char → List Char
  | a :: b :: c :: d :: rest => a :: b :: c :: ',' :: groupDigits (d :: rest)
  | l => l

/-- The comma-grouped integer format of the source applied to a count. -/
def fmtComma (n : ℕ) : String :=
  String.mk ((groupDigits (toString n).data.reverse).reverse)

/-- The dollar format of the source — a dollar sign, then the comma-grouped
value rounded to an integer. -/
def fmtMoney (q : ℚ) : String :=
  let m : ℤ := roundQ q
  (if m < 0 then "-$" else "$") ++ fmtComma m.natAbs

/-- KPI card 1: the comma-grouped filtered count (computed before the
emptiness branch, so the same format applies to 0). -/
def totalCustomersKPI (df : List Record) : String :=
  fmtComma df.length

/-- KPI card 2: the two-decimal rate with a percent sign when non-empty,
the literal `0%` otherwise. -/
def churnRateKPI (df : List Record) : String :=
  if 0 < df.length then fmt2dec (kpiChurnRateValue df) ++ "%" else "0%"

/-- KPI card 3: the dollar-formatted monthly revenue when non-empty, the
literal `$0` otherwise. -/
def monthlyRevenueKPI (df : List Record) : String :=
  if 0 < df.length then fmtMoney (monthlySum df) else "$0"

/-- KPI card 4: the one-decimal mean tenure when non-empty, the literal
`0` otherwise. -/
def avgTenureKPI (df : List Record) : String :=
  if 0 < df.length then fmt1dec (tenureMean df) else "0"

/-! ## Rate-by-category charts -/

/-- The distinct values of a column, first occurrence first.  (pandas
`groupby` returns the keys sorted; the chart re-sorts the groups by rate
immediately afterwards, so only the set of keys is observable.) -/
def distinctVals : List String → List String
  | [] => []
  | a :: l => a :: (distinctVals l).filter (fun v => v ≠ a)

/-- The rows of one group of `df.groupby(dim)`. -/
def groupRows (df : List Record) (dim : Record → String) (v : String) : List Record :=
  df.filter (fun r => dim r = v)

/-- One group: churners divided by total, times 100 (groups are non-empty
by construction, so the denominator is never zero). -/
def groupRate (df : List Record) (dim : Record → String) (v : String) : ℚ :=
  (churnSum (groupRows df dim v) : ℚ) / ((groupRows df dim v).length : ℚ) * 100

/-- The `(value, ChurnRate)` table after `groupby(dim).agg(...)`. -/
def groupRatePairs (df : List Record) (dim : Record → String) : List (String × ℚ) :=
  (distinctVals (df.map dim)).map (fun v => (v, groupRate df dim v))

/-- The descending `sort_values` on `ChurnRate`: the larger rate first. -/
def rateDescOrder (a b : String × ℚ) : Prop :=
  b.2 ≤ a.2

instance : DecidableRel rateDescOrder :=
  fun a b => inferInstanceAs (Decidable (b.2 ≤ a.2))

/-- The rate table sorted by descending churn rate. -/
def sortByRateDesc (ps : List (String × ℚ)) : List (String × ℚ) :=
  ps.insertionSort rateDescOrder

/-- Python `max` over a non-empty rate column; the rates are counts-based
and hence nonnegative, so folding from 0 computes the same maximum. -/
def listMaxQ (l : List ℚ) : ℚ :=
  l.foldr max 0

/-- A rate-by-category bar chart spec: ordered x-categories, y-rates,
pre-formatted bar labels, and the y-axis range
`[0, max(ChurnRate) * 1.2]`. -/
structure RateBarChart where
  categories : List String
  rates : List ℚ
  textLabels : List String
  yRange : ℚ × ℚ
deriving DecidableEq, Repr

/-- `create_churn_by_internet_chart`: group by `InternetService`, compute
rates, sort rate-descending, attach two-decimal percent labels, y-range
from 0 to 1.2 times the maximal rate. -/
def create_churn_by_internet_chart (df : List Record) : RateBarChart :=
  let pairs := sortByRateDesc (groupRatePairs df (·.internetService))
  { categories := pairs.map (·.1)
    rates := pairs.map (·.2)
    textLabels := pairs.map (fun p => fmt2dec p.2 ++ "%")
    yRange := (0, listMaxQ (pairs.map (·.2)) * (6 / 5)) }

/-- `create_churn_by_contract_chart`: group by `Contract`, compute rates,
sort rate-descending, attach two-decimal percent labels, y-range from 0 to
1.2 times the maximal rate. -/
def create_churn_by_contract_chart (df : List Record) : RateBarChart :=
  let pairs := sortByRateDesc (groupRatePairs df (·.contract))
  { categories := pairs.map (·.1)
    rates := pairs.map (·.2)
    textLabels := pairs.map (fun p => fmt2dec p.2 ++ "%")
    yRange := (0, listMaxQ (pairs.map (·.2)) * (6 / 5)) }

/-- The payment-method display-name mapping (`name_mapping`); an unmapped
value becomes pandas `NaN`, modelled as `none`. -/
def shortPaymentName (s : String) : Option String :=
  if s = "Electronic check" then some "Electronic"
  else if s = "Mailed check" then some "Mailed"
  else if s = "Bank transfer (automatic)" then some "Bank Transfer"
  else if s = "Credit card (automatic)" then some "Credit Card"
  else none

/-- A payment-method bar chart spec; x-categories are the shortened
display names. -/
structure PaymentBarChart where
  categories : List (Option String)
  rates : List ℚ
  textLabels : List String
  yRange : ℚ × ℚ
deriving DecidableEq, Repr

/-- `create_churn_by_payment_method_chart`: group by `PaymentMethod`, map
to short names, sort rate-descending, y-range `[0, max * 1.2]`. -/
def create_churn_by_payment_method_chart (df : List Record) : PaymentBarChart :=
  let pairs := sortByRateDesc (groupRatePairs df (·.paymentMethod))
  { categories := pairs.map (fun p => shortPaymentName p.1)
    rates := pairs.map (·.2)
    textLabels := pairs.map (fun p => fmt2dec p.2 ++ "%")
    yRange := (0, listMaxQ (pairs.map (·.2)) * (6 / 5)) }

/-! ## Tenure histogram -/

/-- Histogram bucket labels of the source. -/
def histLabels : List String :=
  ["1-15", "15-30", "30-45", "45-60", ">60"]

/-- `pd.cut` of tenure over bins 0, 15, 30, 45, 60, 100 with
`include_lowest`: intervals [0,15], (15,30], (30,45], (45,60], (60,100];
a tenure outside [0,100] gets no bucket (pandas `NaN`). -/
def tenureBinHist (t : ℤ) : Option String :=
  if 0 ≤ t ∧ t ≤ 15 then some "1-15"
  else if 15 < t ∧ t ≤ 30 then some "15-30"
  else if 30 < t ∧ t ≤ 45 then some "30-45"
  else if 45 < t ∧ t ≤ 60 then some "45-60"
  else if 60 < t ∧ t ≤ 100 then some ">60"
  else none

/-- Membership of a record in the histogram cell of churn status `c` and
bucket `b`. -/
def histPred (c : ℕ) (b : String) (r : Record) : Bool :=
  churnBinary r = c ∧ tenureBinHist r.tenure = some b

/-- One churn-status series of the histogram:
the rows of one churn status, grouped by `TenureBin`, sized, then
reindexed over the full label domain with fill value 0 — one count per
label, 0 for an empty bucket. -/
def histCounts (df : List Record) (c : ℕ) : List (String × ℕ) :=
  histLabels.map (fun b => (b, (df.filter (histPred c b)).length))

/-- The tenure histogram spec: the full label domain on x, one grouped bar
series per churn status. -/
structure HistChart where
  categories : List String
  churned : List ℕ
  stayed : List ℕ
deriving DecidableEq, Repr

/-- `create_tenure_histogram`: churned (`ChurnBinary` equal to 1) and stayed
(`ChurnBinary` equal to 0) counts per bucket, both reindexed over
`histLabels`. -/
def create_tenure_histogram (df : List Record) : HistChart :=
  { categories := histLabels
    churned := (histCounts df 1).map (·.2)
    stayed := (histCounts df 0).map (·.2) }

/-! ## LTV tenure-curve charts -/

/-- LTV bucket labels of the source: 12, 24, 36, 48, 60, 72. -/
def ltvLabels : List String :=
  ["12", "24", "36", "48", "60", "72"]

/-- `pd.cut` of tenure over bins 0, 12, 24, 36, 48, 60, 72 with
`include_lowest`. -/
def tenureBin12 (t : ℤ) : Option String :=
  if 0 ≤ t ∧ t ≤ 12 then some "12"
  else if 12 < t ∧ t ≤ 24 then some "24"
  else if 24 < t ∧ t ≤ 36 then some "36"
  else if 36 < t ∧ t ≤ 48 then some "48"
  else if 48 < t ∧ t ≤ 60 then some "60"
  else if 60 < t ∧ t ≤ 72 then some "72"
  else none

/-- The rows of one `(TenureBin, dim)` cell of the LTV aggregation. -/
def ltvCell (df : List Record) (dim : Record → String) (b cat : String) : List Record :=
  df.filter (fun r => tenureBin12 r.tenure = some b ∧ dim r = cat)

/-- Arithmetic mean of a rational list (cells are non-empty wherever the
charts evaluate this). -/
def meanQ (l : List ℚ) : ℚ :=
  l.sum / (l.length : ℚ)

/-- One category of the LTV line series: the mean of `TotalCharges` per
observed `TenureBin` cell.  Only the non-empty cells appear (the groupby
is observed-only), in bucket-label order, and the y-value is the mean of
the loader-normalized `TotalCharges` column. -/
def ltvSeries (df : List Record) (dim : Record → String) (cat : String) :
    List (String × ℚ) :=
  (ltvLabels.filter (fun b => (ltvCell df dim b cat).length ≠ 0)).map
    (fun b => (b, meanQ ((ltvCell df dim b cat).map totalCharges)))

/-- An LTV tenure-curve chart spec: one line series per category value in
the fixed declared order, and the fixed y-range `[0, 8000]`. -/
structure LtvChart where
  series : List (String × List (String × ℚ))
  yRange : ℚ × ℚ
deriving DecidableEq, Repr

/-- `create_ltv_by_internet_service_chart`: one series per service, in
the fixed order Fiber optic, DSL, No. -/
def create_ltv_by_internet_service_chart (df : List Record) : LtvChart :=
  { series := ["Fiber optic", "DSL", "No"].map
      (fun s => (s, ltvSeries df (·.internetService) s))
    yRange := (0, 8000) }

/-- `create_ltv_by_contract_chart`: one series per contract type, in
the fixed order Month-to-month, One year, Two year. -/
def create_ltv_by_contract_chart (df : List Record) : LtvChart :=
  { series := ["Month-to-month", "One year", "Two year"].map
      (fun s => (s, ltvSeries df (·.contract) s))
    yRange := (0, 8000) }

/-! ## The dashboard update -/

/-- Everything `update_dashboard` returns: the four KPI strings and the
six figures.  `none` models the empty `go.Figure()` returned for each
chart when the filtered set is empty. -/
structure DashboardOutput where
  totalCustomers : String
  churnRate : String
  monthlyRevenue : String
  avgTenure : String
  internetChart : Option RateBarChart
  contractChart : Option RateBarChart
  paymentChart : Option PaymentBarChart
  tenureHistogram : Option HistChart
  ltvInternetChart : Option LtvChart
  ltvContractChart : Option LtvChart
deriving DecidableEq, Repr

/-- `update_dashboard`: filter, compute the four KPIs (defaults on an
empty filtered set), and build each chart only when the filtered set is
non-empty. -/
def update_dashboard (df : List Record) (genderF paperlessF phoneF dependentsF : String)
    (tenureMin tenureMax : Option ℤ) : DashboardOutput :=
  let fd := filter_data df genderF paperlessF phoneF dependentsF tenureMin tenureMax
  { totalCustomers := totalCustomersKPI fd
    churnRate := churnRateKPI fd
    monthlyRevenue := monthlyRevenueKPI fd
    avgTenure := avgTenureKPI fd
    internetChart := if 0 < fd.length then some (create_churn_by_internet_chart fd) else none
    contractChart := if 0 < fd.length then some (create_churn_by_contract_chart fd) else none
    paymentChart := if 0 < fd.length then some (create_churn_by_payment_method_chart fd) else none
    tenureHistogram := if 0 < fd.length then some (create_tenure_histogram fd) else none
    ltvInternetChart := if 0 < fd.length then some (create_ltv_by_internet_service_chart fd) else none
    ltvContractChart := if 0 < fd.length then some (create_ltv_by_contract_chart fd) else none }

/-- Restriction of a record set to one internet-service value, by exact
string equality — the subsetting idiom the source applies to the
`InternetService` column when it builds the per-service LTV series. -/
def restrictInternet (df : List Record) (v : String) : List Record :=
  df.filter (fun r => r.internetService = v)

/-! ## Concrete data for scenarios, witnesses and counterexamples -/

/-- A default customer row; concrete rows below override single fields. -/
def baseRec : Record :=
  { gender := "Female", dependents := "No", phoneService := "Yes",
    paperlessBilling := "No", internetService := "DSL",
    contract := "Month-to-month", paymentMethod := "Electronic check",
    tenure := 1, monthlyCharges := 20, totalChargesRaw := some 20, churn := "No" }

/-- The three-row scenario dataset of the spec: (tenure 1, monthly 20,
churned, DSL), (tenure 10, monthly 50, retained, Fiber optic),
(tenure 70, monthly 30, retained, DSL). -/
def df7 : List Record :=
  [{ baseRec with tenure := 1, monthlyCharges := 20, churn := "Yes", internetService := "DSL" },
   { baseRec with tenure := 10, monthlyCharges := 50, churn := "No", internetService := "Fiber optic" },
   { baseRec with tenure := 70, monthlyCharges := 30, churn := "No", internetService := "DSL" }]

/-- Two rows whose contract order by descending rate (Two year first, at
rate 100) disagrees with contract-length-ascending domain order. -/
def dfC1 : List Record :=
  [{ baseRec with contract := "Month-to-month", churn := "No" },
   { baseRec with contract := "Two year", churn := "Yes" }]

/-- A row whose stored total-charges cell is blank (normalizing to 0)
while tenure times monthly charges is 500. -/
def rC2 : Record :=
  { baseRec with tenure := 10, monthlyCharges := 50, totalChargesRaw := none }

/-- A row with tenure 1, below the minimum bound 5 used against it. -/
def rC3 : Record :=
  { baseRec with tenure := 1 }

/-- A retained (non-churned) row. -/
def rC4 : Record :=
  { baseRec with churn := "No" }

/-- A row whose tenure 101 lies beyond the outermost histogram boundary 100. -/
def rC5 : Record :=
  { baseRec with tenure := 101 }

/-! ## C3 — single-bound tenure ranges -/

/-- C3 (amended): when both tenure bounds are present the evaluator keeps
exactly the records inside the inclusive range; when either bound is
missing the tenure criterion is skipped entirely, so records of every
tenure pass (no one-sided filtering happens). -/
theorem claimC3_amended (df : List Record) (g p ph dep : String) (tmin tmax : ℤ) :
    filter_data df g p ph dep (some tmin) (some tmax)
      = (filter_data df g p ph dep none none).filter
          (fun r => tmin ≤ r.tenure ∧ r.tenure ≤ tmax)
    ∧ filter_data df g p ph dep (some tmin) none = filter_data df g p ph dep none none
    ∧ filter_data df g p ph dep none (some tmax) = filter_data df g p ph dep none none :=
  ⟨rfl, rfl, rfl⟩

/-- C3 (counterexample): with only the minimum bound 5 given, the evaluator
keeps the record of tenure 1 — it does not retain exactly the records with
tenure at least 5, as the claim states. -/
theorem claimC3_counterexample :
    filter_data [rC3] "All" "All" "All" "All" (some 5) none = [rC3]
    ∧ rC3.tenure < 5
    ∧ filter_data [rC3] "All" "All" "All" "All" (some 5) none
        ≠ [rC3].filter (fun r => 5 ≤ r.tenure) := by
  with_unfolding_all decide

/-! ## C7 — the three-row scenario -/

/-- C7: on the three-row scenario dataset with the default (no-op) filter
selection the KPI summary shows count 3, churn rate 33.33 percent, monthly
revenue 100 dollars and average tenure 27.0; restricted to the DSL
internet-service subset it shows count 2 and churn rate 50.00 percent. -/
theorem claimC7 :
    (update_dashboard df7 "All" "All" "All" "All" (some 0) (some 72)).totalCustomers = "3"
    ∧ (update_dashboard df7 "All" "All" "All" "All" (some 0) (some 72)).churnRate = "33.33%"
    ∧ (update_dashboard df7 "All" "All" "All" "All" (some 0) (some 72)).monthlyRevenue = "$100"
    ∧ (update_dashboard df7 "All" "All" "All" "All" (some 0) (some 72)).avgTenure = "27.0"
    ∧ (restrictInternet df7 "DSL").length = 2
    ∧ churnRateKPI (restrictInternet df7 "DSL") = "50.00%" := by
  with_unfolding_all decide

/-! ## C9 — the tenure-band column of the loader -/

/-- C9: the tenure-band derived column is defined (with one of the six
fixed labels) exactly when tenure lies in [0, 72]; a tenure strictly
greater than 72 receives no band. -/
theorem claimC9 (t : ℤ) :
    ((tenureBand t).isSome ↔ 0 ≤ t ∧ t ≤ 72)
    ∧ (∀ l, tenureBand t = some l →
        l ∈ (["0-3", "3-6", "6-12", "12-24", "24-48", "48-72"] : List String))
    ∧ (72 < t → tenureBand t = none) := by
  unfold tenureBand
  refine ⟨?_, ?_, ?_⟩
  · split_ifs <;> simp <;> omega
  · intro l hl
    split_ifs at hl <;> simp_all
  · intro h
    split_ifs <;> first | rfl | omega

/-- C9 (witness): concrete instances of the band characterization. -/
theorem claimC9_witness :
    tenureBand 100 = none
    ∧ ((tenureBand 50).isSome ↔ (0:ℤ) ≤ 50 ∧ (50:ℤ) ≤ 72)
    ∧ tenureBand 50 = some "48-72" :=
  ⟨(claimC9 100).2.2 (by decide), (claimC9 50).1, by decide⟩

/-! ## C4 — range of the churn-rate KPI -/

/-- Each churn indicator is 0 or 1, hence at most 1. -/
theorem churnBinary_le_one (r : Record) : churnBinary r ≤ 1 := by
  unfold churnBinary
  split_ifs <;> simp

/-- The churner count never exceeds the record count. -/
theorem churnSum_le_length (df : List Record) : churnSum df ≤ df.length := by
  induction df with
  | nil => simp [churnSum]
  | cons r df ih =>
    have h := churnBinary_le_one r
    simp only [churnSum, List.map_cons, List.sum_cons, List.length_cons] at ih ⊢
    omega

/-- C4 (amended): the churn-rate KPI always lies in [0, 100]; it equals 0
exactly when NO filtered record churned — which includes the empty
filtered set, but also any non-empty set of retained customers, so the
claimed equivalence with emptiness fails in one direction. -/
theorem claimC4_amended (df : List Record) :
    0 ≤ kpiChurnRateValue df ∧ kpiChurnRateValue df ≤ 100
    ∧ (kpiChurnRateValue df = 0 ↔ churnSum df = 0) := by
  unfold kpiChurnRateValue
  by_cases h : 0 < df.length
  · rw [if_pos h]
    have hn : (0:ℚ) < (df.length : ℚ) := by exact_mod_cast h
    have hcn : (churnSum df : ℚ) ≤ (df.length : ℚ) := by
      exact_mod_cast churnSum_le_length df
    refine ⟨by positivity, ?_, ?_⟩
    · have h1 : (churnSum df : ℚ) / (df.length : ℚ) ≤ 1 := (div_le_one hn).mpr hcn
      calc (churnSum df : ℚ) / (df.length : ℚ) * 100
          ≤ 1 * 100 := mul_le_mul_of_nonneg_right h1 (by norm_num)
        _ = 100 := by norm_num
    · constructor
      · intro h0
        rcases mul_eq_zero.mp h0 with h1 | h1
        · rcases div_eq_zero_iff.mp h1 with h2 | h2
          · exact_mod_cast h2
          · exact absurd h2 (ne_of_gt hn)
        · norm_num at h1
      · intro h0
        rw [h0]
        norm_num
  · rw [if_neg h]
    have h0 : df.length = 0 := by omega
    have hdf : df = [] := List.length_eq_zero.mp h0
    subst hdf
    simp [churnSum]

/-- C4 (counterexample): one retained customer gives a churn rate of 0 on
a filtered set of count 1, refuting the claimed only-if direction. -/
theorem claimC4_counterexample :
    kpiChurnRateValue [rC4] = 0 ∧ ([rC4] : List Record).length = 1 := by
  with_unfolding_all decide

/-! ## C6 and C8 — the empty-result path -/

/-- On an empty filtered set every KPI takes its default and every chart
slot holds the empty figure.  Shared computation behind the empty-result
claims. -/
theorem update_dashboard_of_empty (df : List Record) (g p ph dep : String)
    (tmin tmax : Option ℤ)
    (h : filter_data df g p ph dep tmin tmax = []) :
    update_dashboard df g p ph dep tmin tmax =
      { totalCustomers := "0", churnRate := "0%", monthlyRevenue := "$0", avgTenure := "0",
        internetChart := none, contractChart := none, paymentChart := none,
        tenureHistogram := none, ltvInternetChart := none, ltvContractChart := none } := by
  unfold update_dashboard
  rw [h]
  rfl

/-- C6: whenever the filtered record set is empty, the dashboard returns
the defined defaults (count 0, rate 0 percent, revenue 0 dollars, tenure
0) and all six chart slots carry the empty figure — no error leaves the
engine. -/
theorem claimC6 (df : List Record) (g p ph dep : String) (tmin tmax : Option ℤ)
    (h : filter_data df g p ph dep tmin tmax = []) :
    (update_dashboard df g p ph dep tmin tmax).totalCustomers = "0"
    ∧ (update_dashboard df g p ph dep tmin tmax).churnRate = "0%"
    ∧ (update_dashboard df g p ph dep tmin tmax).monthlyRevenue = "$0"
    ∧ (update_dashboard df g p ph dep tmin tmax).avgTenure = "0"
    ∧ (update_dashboard df g p ph dep tmin tmax).internetChart = none
    ∧ (update_dashboard df g p ph dep tmin tmax).contractChart = none
    ∧ (update_dashboard df g p ph dep tmin tmax).paymentChart = none
    ∧ (update_dashboard df g p ph dep tmin tmax).tenureHistogram = none
    ∧ (update_dashboard df g p ph dep tmin tmax).ltvInternetChart = none
    ∧ (update_dashboard df g p ph dep tmin tmax).ltvContractChart = none := by
  rw [update_dashboard_of_empty df g p ph dep tmin tmax h]
  exact ⟨rfl, rfl, rfl, rfl, rfl, rfl, rfl, rfl, rfl, rfl⟩

/-- C6 (witness): the gender filter Male empties the all-Female scenario
dataset, and the dashboard then shows every default. -/
theorem claimC6_witness :
    filter_data df7 "Male" "All" "All" "All" none none = []
    ∧ (update_dashboard df7 "Male" "All" "All" "All" none none).totalCustomers = "0"
    ∧ (update_dashboard df7 "Male" "All" "All" "All" none none).churnRate = "0%"
    ∧ (update_dashboard df7 "Male" "All" "All" "All" none none).monthlyRevenue = "$0"
    ∧ (update_dashboard df7 "Male" "All" "All" "All" none none).avgTenure = "0"
    ∧ (update_dashboard df7 "Male" "All" "All" "All" none none).internetChart = none
    ∧ (update_dashboard df7 "Male" "All" "All" "All" none none).contractChart = none
    ∧ (update_dashboard df7 "Male" "All" "All" "All" none none).paymentChart = none
    ∧ (update_dashboard df7 "Male" "All" "All" "All" none none).tenureHistogram = none
    ∧ (update_dashboard df7 "Male" "All" "All" "All" none none).ltvInternetChart = none
    ∧ (update_dashboard df7 "Male" "All" "All" "All" none none).ltvContractChart = none :=
  ⟨by with_unfolding_all decide,
   claimC6 df7 "Male" "All" "All" "All" none none (by with_unfolding_all decide)⟩

/-- C8: an inverted tenure range (minimum above maximum) excludes every
record, and the dashboard flows through the same defined defaults as any
other empty result. -/
theorem claimC8 (df : List Record) (g p ph dep : String) (tmin tmax : ℤ)
    (h : tmax < tmin) :
    filter_data df g p ph dep (some tmin) (some tmax) = []
    ∧ update_dashboard df g p ph dep (some tmin) (some tmax) =
      { totalCustomers := "0", churnRate := "0%", monthlyRevenue := "$0", avgTenure := "0",
        internetChart := none, contractChart := none, paymentChart := none,
        tenureHistogram := none, ltvInternetChart := none, ltvContractChart := none } := by
  have hfil : filter_data df g p ph dep (some tmin) (some tmax) = [] := by
    unfold filter_data
    apply List.filter_eq_nil_iff.mpr
    intro r hr
    simp only [decide_eq_true_eq, not_and, not_le]
    intro h1
    omega
  exact ⟨hfil, update_dashboard_of_empty df g p ph dep (some tmin) (some tmax) hfil⟩

/-- C8 (witness): the inverted range [5, 2] on the scenario dataset. -/
theorem claimC8_witness :
    (2:ℤ) < 5
    ∧ (filter_data df7 "All" "All" "All" "All" (some 5) (some 2) = []
      ∧ update_dashboard df7 "All" "All" "All" "All" (some 5) (some 2) =
        { totalCustomers := "0", churnRate := "0%", monthlyRevenue := "$0", avgTenure := "0",
          internetChart := none, contractChart := none, paymentChart := none,
          tenureHistogram := none, ltvInternetChart := none, ltvContractChart := none }) :=
  ⟨by decide, claimC8 df7 "All" "All" "All" "All" 5 2 (by decide)⟩

/-! ## C1 — ordering of the rate-by-category charts -/

instance : IsTotal (String × ℚ) rateDescOrder :=
  ⟨fun a b => le_total b.2 a.2⟩

instance : IsTrans (String × ℚ) rateDescOrder :=
  ⟨fun _ _ _ hab hbc => le_trans hbc hab⟩

/-- The y-column of a rate table sorted by `sortByRateDesc` is
nonincreasing. -/
theorem sortByRateDesc_sorted (ps : List (String × ℚ)) :
    ((sortByRateDesc ps).map (fun p => p.2)).Sorted (fun a b => b ≤ a) := by
  have h : (sortByRateDesc ps).Sorted rateDescOrder :=
    List.sorted_insertionSort rateDescOrder ps
  exact List.Pairwise.map _ (fun a b hab => hab) h

/-- C1 (amended): all three rate-by-category charts — internet service,
contract and payment method alike — order their groups by descending
churn rate; no chart receives a fixed domain order. -/
theorem claimC1_amended (df : List Record) :
    ((create_churn_by_internet_chart df).rates).Sorted (fun a b => b ≤ a)
    ∧ ((create_churn_by_contract_chart df).rates).Sorted (fun a b => b ≤ a)
    ∧ ((create_churn_by_payment_method_chart df).rates).Sorted (fun a b => b ≤ a) :=
  ⟨sortByRateDesc_sorted _, sortByRateDesc_sorted _, sortByRateDesc_sorted _⟩

/-- C1 (counterexample): on a dataset where the Two year contract has the
higher churn rate, the contract chart orders Two year first — not the
contract-length-ascending domain order (Month-to-month before Two year)
that the claim says this chart uses. -/
theorem claimC1_counterexample :
    (create_churn_by_contract_chart dfC1).categories = ["Two year", "Month-to-month"]
    ∧ (create_churn_by_contract_chart dfC1).categories ≠ ["Month-to-month", "Two year"] := by
  with_unfolding_all decide

/-! ## C10 — the y-axis range of the rate charts -/

/-- The maximal per-group churn rate of one dimension, taken over the
unsorted group table. -/
def maxGroupRate (df : List Record) (dim : Record → String) : ℚ :=
  listMaxQ ((groupRatePairs df dim).map (fun p => p.2))

/-- Folding `max` from 0 is invariant under permutation. -/
theorem listMaxQ_perm {l1 l2 : List ℚ} (h : l1.Perm l2) : listMaxQ l1 = listMaxQ l2 := by
  unfold listMaxQ
  induction h with
  | nil => rfl
  | cons x _ ih => simp only [List.foldr_cons, ih]
  | swap x y l => simp only [List.foldr_cons]; rw [max_left_comm]
  | trans _ _ ih1 ih2 => rw [ih1, ih2]

/-- The maximum the chart computes over its sorted rate column equals the
maximal group rate of the unsorted aggregation. -/
theorem chart_max_eq (df : List Record) (dim : Record → String) :
    listMaxQ ((sortByRateDesc (groupRatePairs df dim)).map (fun p => p.2))
      = maxGroupRate df dim :=
  listMaxQ_perm (List.Perm.map _ (List.perm_insertionSort rateDescOrder _))

/-- C10: on a non-empty filtered set, each rate-by-category chart sets its
y-axis range to [0, 1.2 times the maximal group churn rate of that chart]
— an upper bound computed from the aggregated data, not a constant. -/
theorem claimC10 (df : List Record) (h : df ≠ []) :
    (create_churn_by_internet_chart df).yRange
        = (0, maxGroupRate df (fun r => r.internetService) * (6 / 5))
    ∧ (create_churn_by_contract_chart df).yRange
        = (0, maxGroupRate df (fun r => r.contract) * (6 / 5))
    ∧ (create_churn_by_payment_method_chart df).yRange
        = (0, maxGroupRate df (fun r => r.paymentMethod) * (6 / 5)) := by
  refine ⟨?_, ?_, ?_⟩
  · show (0, listMaxQ ((sortByRateDesc (groupRatePairs df (fun r => r.internetService))).map
        (fun p => p.2)) * (6 / 5)) = _
    rw [chart_max_eq]
  · show (0, listMaxQ ((sortByRateDesc (groupRatePairs df (fun r => r.contract))).map
        (fun p => p.2)) * (6 / 5)) = _
    rw [chart_max_eq]
  · show (0, listMaxQ ((sortByRateDesc (groupRatePairs df (fun r => r.paymentMethod))).map
        (fun p => p.2)) * (6 / 5)) = _
    rw [chart_max_eq]

/-- C10 (witness): the y-ranges on the non-empty scenario dataset. -/
theorem claimC10_witness :
    df7 ≠ []
    ∧ ((create_churn_by_internet_chart df7).yRange
          = (0, maxGroupRate df7 (fun r => r.internetService) * (6 / 5))
      ∧ (create_churn_by_contract_chart df7).yRange
          = (0, maxGroupRate df7 (fun r => r.contract) * (6 / 5))
      ∧ (create_churn_by_payment_method_chart df7).yRange
          = (0, maxGroupRate df7 (fun r => r.paymentMethod) * (6 / 5))) :=
  ⟨by decide, claimC10 df7 (by decide)⟩

/-! ## C2 — the measure behind the LTV curves -/

/-- The lifetime-value measure the claim states: tenure months times
monthly charges.  Written from the spec wording, for comparison with the
source, which aggregates the stored total-charges column instead. -/
def ltvSpecMeasure (r : Record) : ℚ :=
  (r.tenure : ℚ) * r.monthlyCharges

/-- The per-cell value the source actually plots, written independently of
the chart builder: the sum of the loader-normalized total-charges over the
cell, divided by the cell size. -/
def cellMeanTotalCharges (df : List Record) (dim : Record → String) (b cat : String) : ℚ :=
  ((ltvCell df dim b cat).map totalCharges).sum / ((ltvCell df dim b cat).length : ℚ)

/-- C2 (amended): every point of either LTV tenure curve carries the mean
of the loader-stored total-charges field over its (bucket, category) cell
— not the tenure-times-monthly-charges product — recomputed from the
record list passed in on each call. -/
theorem claimC2_amended (df : List Record) (b cat : String) (v : ℚ) :
    ((b, v) ∈ ltvSeries df (fun r => r.internetService) cat →
      v = cellMeanTotalCharges df (fun r => r.internetService) b cat)
    ∧ ((b, v) ∈ ltvSeries df (fun r => r.contract) cat →
      v = cellMeanTotalCharges df (fun r => r.contract) b cat) := by
  constructor <;>
  · intro hmem
    unfold ltvSeries at hmem
    rcases List.mem_map.mp hmem with ⟨b1, hb1, heq⟩
    injection heq with h1 h2
    subst h1
    subst h2
    simp [meanQ, cellMeanTotalCharges]

/-- C2 (amended, witness): the DSL point of bucket 12 on the scenario
dataset equals the cell mean of the stored total-charges. -/
theorem claimC2_witness :
    (("12", (20:ℚ)) ∈ ltvSeries df7 (fun r => r.internetService) "DSL")
    ∧ (20:ℚ) = cellMeanTotalCharges df7 (fun r => r.internetService) "12" "DSL" :=
  ⟨by with_unfolding_all decide,
   (claimC2_amended df7 "12" "DSL" 20).1 (by with_unfolding_all decide)⟩

set_option maxRecDepth 4000 in
/-- C2 (counterexample): a record with a blank stored total-charges cell
(normalized to 0), tenure 10 and monthly charges 50 plots as 0, while
tenure times monthly charges is 500 — so the curves do not aggregate the
claimed measure. -/
theorem claimC2_counterexample :
    ltvSeries [rC2] (fun r => r.internetService) "DSL" = [("12", 0)]
    ∧ ltvSpecMeasure rC2 = 500
    ∧ (0:ℚ) ≠ 500 := by
  with_unfolding_all decide

/-! ## C5 — histogram bucket totals -/

/-- Each churn indicator is 1 or 0. -/
theorem churnBinary_cases (r : Record) : churnBinary r = 1 ∨ churnBinary r = 0 := by
  unfold churnBinary
  split_ifs <;> simp

/-- A tenure within [0, 100] falls in exactly one of the five histogram
buckets. -/
theorem tenureBinHist_total (t : ℤ) (h0 : 0 ≤ t) (h1 : t ≤ 100) :
    tenureBinHist t = some "1-15" ∨ tenureBinHist t = some "15-30"
    ∨ tenureBinHist t = some "30-45" ∨ tenureBinHist t = some "45-60"
    ∨ tenureBinHist t = some ">60" := by
  unfold tenureBinHist
  split_ifs <;> simp_all

/-- Filtering a cons distributes over a per-label sum of filter lengths. -/
theorem sum_filter_length_cons (labels : List String) (p : String → Record → Bool)
    (r : Record) (df : List Record) :
    (labels.map (fun b => ((r :: df).filter (p b)).length)).sum
      = (labels.map (fun b => if p b r then 1 else 0)).sum
        + (labels.map (fun b => (df.filter (p b)).length)).sum := by
  induction labels with
  | nil => rfl
  | cons b bs ih =>
    have hhead : ((r :: df).filter (p b)).length
        = (if p b r then 1 else 0) + (df.filter (p b)).length := by
      rw [List.filter_cons]
      split_ifs <;> simp [Nat.add_comm]
    simp only [List.map_cons, List.sum_cons, hhead, ih]
    omega

/-- One in-range record contributes exactly one count across all cells of
both churn-status series. -/
theorem hist_indicator_sum (r : Record) (h0 : 0 ≤ r.tenure) (h1 : r.tenure ≤ 100) :
    (histLabels.map (fun b => if histPred 1 b r then (1:ℕ) else 0)).sum
      + (histLabels.map (fun b => if histPred 0 b r then (1:ℕ) else 0)).sum = 1 := by
  rcases tenureBinHist_total r.tenure h0 h1 with h | h | h | h | h <;>
    rcases churnBinary_cases r with hc | hc <;>
      simp [histLabels, histPred, h, hc]

/-- The count column of one churn-status series, unpaired from its labels. -/
theorem histCounts_snd (df : List Record) (c : ℕ) :
    (histCounts df c).map (fun p => p.2)
      = histLabels.map (fun b => (df.filter (histPred c b)).length) := by
  unfold histCounts
  rw [List.map_map]
  rfl

/-- The two series totals add up to the record count whenever every tenure
is within the binnable range. -/
theorem hist_sum_eq (df : List Record)
    (hb : ∀ r ∈ df, 0 ≤ r.tenure ∧ r.tenure ≤ 100) :
    ((histCounts df 1).map (fun p => p.2)).sum
      + ((histCounts df 0).map (fun p => p.2)).sum = df.length := by
  induction df with
  | nil => rfl
  | cons r df ih =>
    have hr := hb r (List.mem_cons_self r df)
    have ihh := ih (fun x hx => hb x (List.mem_cons_of_mem r hx))
    have hind := hist_indicator_sum r hr.1 hr.2
    simp only [histCounts_snd] at ihh ⊢
    rw [sum_filter_length_cons histLabels (histPred 1) r df,
      sum_filter_length_cons histLabels (histPred 0) r df]
    simp only [List.length_cons]
    omega

/-- C5 (amended): the histogram always reports one count per label of the
full declared domain for both series, and the churned plus retained
totals equal the filtered count provided every record tenure lies within
the outermost bin boundaries [0, 100]; a record outside that range falls
in no bucket. -/
theorem claimC5_amended (df : List Record)
    (hb : ∀ r ∈ df, 0 ≤ r.tenure ∧ r.tenure ≤ 100) :
    (create_tenure_histogram df).categories = histLabels
    ∧ ((create_tenure_histogram df).churned).length = histLabels.length
    ∧ ((create_tenure_histogram df).stayed).length = histLabels.length
    ∧ ((create_tenure_histogram df).churned).sum
        + ((create_tenure_histogram df).stayed).sum = df.length := by
  refine ⟨rfl, ?_, ?_, ?_⟩
  · simp [create_tenure_histogram, histCounts]
  · simp [create_tenure_histogram, histCounts]
  · exact hist_sum_eq df hb

/-- C5 (witness): the three-row scenario dataset has all tenures in range
and its histogram totals add up to 3. -/
theorem claimC5_witness :
    (∀ r ∈ df7, 0 ≤ r.tenure ∧ r.tenure ≤ 100)
    ∧ ((create_tenure_histogram df7).categories = histLabels
      ∧ ((create_tenure_histogram df7).churned).length = histLabels.length
      ∧ ((create_tenure_histogram df7).stayed).length = histLabels.length
      ∧ ((create_tenure_histogram df7).churned).sum
          + ((create_tenure_histogram df7).stayed).sum = df7.length) :=
  ⟨by decide, claimC5_amended df7 (by decide)⟩

/-- C5 (counterexample): a single record of tenure 101 escapes every
bucket, so the two series totals sum to 0 while the filtered count is 1 —
the claimed universal bucket-sum identity fails. -/
theorem claimC5_counterexample :
    ((create_tenure_histogram [rC5]).churned).sum
        + ((create_tenure_histogram [rC5]).stayed).sum = 0
    ∧ ([rC5] : List Record).length = 1 := by
  with_unfolding_all decide

end TelcoChurn
